import Mathlib

/-!
Shallow embedding of `wpull/app.py` (the `Builder` class): the wiring layer
that turns a parsed argument namespace into the crawl engine's component
graph.  Collaborator classes from other wpull modules (URLInfo, writers,
recorders, the HTTP stack, hook environment) are modelled as tagged records
that remember exactly the constructor arguments the builder passes them,
which is all the builder-level claims observe.
-/

namespace Wpull

/-- Python logging level constants (`logging.DEBUG` etc.). -/
def logDEBUG : Nat := 10

/-- `logging.INFO`. -/
def logINFO : Nat := 20

/-- `logging.WARN`. -/
def logWARN : Nat := 30

/-- Truthiness of an optional Python string (`None` and `''` are falsy). -/
def pyTruthyStr : Option String → Bool
  | none => false
  | some s => !s.isEmpty

/-- Truthiness of an optional Python number (`None` and `0` are falsy).
Timeout values are modelled as `Option Nat`; the builder never computes
with them, it only tests truthiness and passes them through. -/
def pyTruthyNum : Option Nat → Bool
  | none => false
  | some n => n != 0

/-- The parsed argument namespace (`self._args`), restricted to the
attributes `Builder` reads.  Flags produced by `store_true` are `Bool`;
options that may be absent are `Option`; `input_file` is a file object in
Python, modelled by the sequence of lines iterating it yields. -/
structure Args where
  urls : List String
  input_file : Option (List String)
  python_script : Option String
  database : String
  concurrent : Nat
  verbosity : Option Nat
  warc_file : Option String
  no_warc_compression : Bool
  warc_header : List String
  warc_tempdir : Option String
  warc_log : Bool
  warc_append : Bool
  server_response : Bool
  delete_after : Bool
  recursive : Bool
  page_requisites : Bool
  continue_download : Bool
  clobber_method : Option String
  timestamping : Bool
  use_directories : Option String
  directory_root : String
  default_page : String
  cut_dirs : Nat
  protocol_directories : Bool
  host_directories : Bool
  save_headers : Bool
  use_server_timestamps : Bool
  user_agent : Option String
  referer : Option String
  header : List String
  dns_timeout : Option Nat
  connect_timeout : Option Nat
  read_timeout : Option Nat
  timeout : Option Nat
  inet_family : Option String
  prefer_family : Option String
  rotate_dns : Bool
  http_keep_alive : Bool
  domains : Option (List String)
  exclude_domains : Option (List String)
  hostnames : Option (List String)
  exclude_hostnames : Option (List String)
  tries : Option Nat
  level : Option Nat
  span_hosts : Bool
  accept_regex : Option String
  reject_regex : Option String
  include_directories : Option (List String)
  exclude_directories : Option (List String)
  no_parent : Bool
  follow_tags : Option (List String)
  ignore_tags : Option (List String)
  relative : Bool
  robots : Bool
  wait : Option Nat
  random_wait : Bool
  waitretry : Option Nat
  retry_connrefused : Bool
  retry_dns_error : Bool
  max_redirect : Nat
deriving Repr, DecidableEq

/-- Modelled from the spec: `wpull.url.URLInfo` is not under `src/`; the
spec says it "parses/normalizes a URL string into a canonical, comparable
record".  The builder only ever parses a string with a default scheme and
reads back `.url`, so the model keeps exactly those two inputs. -/
structure URLInfo where
  raw : String
  defaultScheme : String
deriving Repr, DecidableEq

/-- `URLInfo.parse(url_string, default_scheme=...)`, abstractly. -/
def URLInfo.parse (s : String) (defaultScheme : String) : URLInfo :=
  ⟨s, defaultScheme⟩

/-- The `.url` attribute of a parsed URLInfo (its normalized string). -/
def URLInfo.url (u : URLInfo) : String :=
  u.raw

/-- `Builder._build_input_urls`: the command-line URLs, followed by the
input file's lines when an input file was given, each parsed with default
scheme `'http'`. -/
def buildInputUrls (args : Args) : List URLInfo :=
  let urlStrings :=
    match args.input_file with
    | some lines => args.urls ++ lines
    | none => args.urls
  urlStrings.map (fun s => URLInfo.parse s "http")

/-- One URL filter instance, tagged by its class and remembering the
constructor arguments `Builder._build_url_filters` passes. -/
inductive URLFilter where
  | http
  | backwardDomain (accepted rejected : Option (List String))
  | hostname (accepted rejected : Option (List String))
  | tries (maxTries : Option Nat)
  | recursive (enabled pageRequisites : Bool)
  | level (maxLevel : Option Nat)
  | spanHosts (inputUrlInfos : List URLInfo) (enabled : Bool)
  | regex (accept reject : Option String)
  | directory (accepted rejected : Option (List String))
  | parent
deriving Repr, DecidableEq

/-- The class of a filter instance, forgetting constructor arguments. -/
inductive FilterKind where
  | http
  | backwardDomain
  | hostname
  | tries
  | recursive
  | level
  | spanHosts
  | regex
  | directory
  | parent
deriving Repr, DecidableEq

/-- Map a filter instance to its class. -/
def URLFilter.kind : URLFilter → FilterKind
  | .http => .http
  | .backwardDomain _ _ => .backwardDomain
  | .hostname _ _ => .hostname
  | .tries _ => .tries
  | .recursive _ _ => .recursive
  | .level _ => .level
  | .spanHosts _ _ => .spanHosts
  | .regex _ _ => .regex
  | .directory _ _ => .directory
  | .parent => .parent

/-- `Builder._build_url_filters`: the fixed list of nine filters, plus the
parent filter appended when `--no-parent` is set. -/
def buildURLFilters (args : Args) : List URLFilter :=
  let filters : List URLFilter :=
    [ .http,
      .backwardDomain args.domains args.exclude_domains,
      .hostname args.hostnames args.exclude_hostnames,
      .tries args.tries,
      .recursive args.recursive args.page_requisites,
      .level args.level,
      .spanHosts (buildInputUrls args) args.span_hosts,
      .regex args.accept_regex args.reject_regex,
      .directory args.include_directories args.exclude_directories ]
  if args.no_parent then filters ++ [.parent] else filters

/-- Count the filters of a given class in a pipeline. -/
def countKind (fs : List URLFilter) (k : FilterKind) : Nat :=
  fs.countP (fun f => f.kind == k)

/-- Constructor arguments `Builder._build_file_writer` hands to `PathNamer`. -/
structure PathNamerArgs where
  root : String
  index : String
  useDir : Bool
  cut : Nat
  protocol : Bool
  hostname : Bool
deriving Repr, DecidableEq

/-- The four non-null file-writer classes the builder can pick. -/
inductive FileWriterClass where
  | overwrite
  | ignore
  | timestamping
  | antiClobber
deriving Repr, DecidableEq

/-- The file writer the builder returns: either `NullWriter()` or one of
the four writer classes applied to the path namer and flags. -/
inductive FileWriter where
  | null
  | writer (cls : FileWriterClass) (pathNamer : PathNamerArgs)
      (fileContinuing headersIncluded localTimestamping : Bool)
deriving Repr, DecidableEq

/-- The writer's selected class, with `NullWriter` as a fifth kind. -/
inductive FileWriterKind where
  | null
  | overwrite
  | ignore
  | timestamping
  | antiClobber
deriving Repr, DecidableEq

/-- Forget everything but which writer class was chosen. -/
def FileWriter.kind : FileWriter → FileWriterKind
  | .null => .null
  | .writer .overwrite _ _ _ _ => .overwrite
  | .writer .ignore _ _ _ _ => .ignore
  | .writer .timestamping _ _ _ _ => .timestamping
  | .writer .antiClobber _ _ _ _ => .antiClobber

/-- `Builder._build_file_writer`, line for line: null writer for
`--delete-after`; otherwise compute `use_dir`, build the path namer, pick
the writer class from recursion/requisites/continue, clobber method and
timestamping, and apply it. -/
def buildFileWriter (args : Args) : FileWriter :=
  if args.delete_after then .null
  else
    let useDir0 := args.urls.length != 1 || args.page_requisites || args.recursive
    let useDir :=
      if args.use_directories = some "force" then true
      else if args.use_directories = some "no" then false
      else useDir0
    let pathNamer : PathNamerArgs :=
      { root := args.directory_root
        index := args.default_page
        useDir := useDir
        cut := args.cut_dirs
        protocol := args.protocol_directories
        hostname := args.host_directories }
    let cls : FileWriterClass :=
      if args.recursive || args.page_requisites || args.continue_download then
        if args.clobber_method = some "disable" then .overwrite else .ignore
      else if args.timestamping then .timestamping
      else .antiClobber
    .writer cls pathNamer args.continue_download args.save_headers
      args.use_server_timestamps

/-- `Resolver.IPv4` / `Resolver.IPv6` (socket address families). -/
inductive AddressFamily where
  | ipv4
  | ipv6
deriving Repr, DecidableEq

/-- Constructor arguments of the `Resolver` the builder makes. -/
structure ResolverArgs where
  families : List AddressFamily
  timeout : Option Nat
  rotate : Bool
deriving Repr, DecidableEq

/-- Constructor arguments the builder's `connection_factory` closes over
and passes to every `Connection` it produces. -/
structure ConnectionArgs where
  resolver : ResolverArgs
  connectTimeout : Option Nat
  readTimeout : Option Nat
  keepAlive : Bool
deriving Repr, DecidableEq

/-- The timeout override at the top of `Builder._build_http_client`: a
truthy `--timeout` replaces all of the dns, connect and read timeouts;
returned as `(dns, connect, read)`. -/
def effectiveTimeouts (args : Args) : Option Nat × Option Nat × Option Nat :=
  if pyTruthyNum args.timeout then (args.timeout, args.timeout, args.timeout)
  else (args.dns_timeout, args.connect_timeout, args.read_timeout)

/-- The address-family list chosen in `Builder._build_http_client`. -/
def resolverFamilies (args : Args) : List AddressFamily :=
  if args.inet_family = some "IPv4" then [.ipv4]
  else if args.inet_family = some "IPv6" then [.ipv6]
  else if args.prefer_family = some "IPv6" then [.ipv6, .ipv4]
  else [.ipv4, .ipv6]

/-- The `Resolver` built by `Builder._build_http_client`. -/
def buildResolver (args : Args) : ResolverArgs :=
  { families := resolverFamilies args
    timeout := (effectiveTimeouts args).1
    rotate := args.rotate_dns }

/-- What the builder's `connection_factory` passes to each `Connection`. -/
def buildConnectionArgs (args : Args) : ConnectionArgs :=
  { resolver := buildResolver args
    connectTimeout := (effectiveTimeouts args).2.1
    readTimeout := (effectiveTimeouts args).2.2
    keepAlive := args.http_keep_alive }

/-- Python `str(args)`: the rendering of the whole argument namespace that
`_build_recorder` stores under `wpull-arguments`.  The exact argparse
format is immaterial to the wiring; any total rendering of `Args` works. -/
def argsStr (args : Args) : String :=
  toString (repr args)

/-- Python `s.split(sep, 1)` restricted to a one-character separator: split
at the first occurrence, `none` when the separator is absent (where the
Python tuple unpacking `name, value = ...` would raise `ValueError`). -/
def pySplitOnceAux (sep : Char) : List Char → Option (List Char × List Char)
  | [] => none
  | c :: rest =>
      if c = sep then some ([], rest)
      else
        match pySplitOnceAux sep rest with
        | some (a, b) => some (c :: a, b)
        | none => none

/-- String version of `pySplitOnceAux`. -/
def pySplitOnce (sep : Char) (s : String) : Option (String × String) :=
  (pySplitOnceAux sep s.data).map (fun p => (String.mk p.1, String.mk p.2))

/-- Python `s.strip()`: drop whitespace from both ends (the ASCII
whitespace `Char.isWhitespace` covers; Python additionally strips `\x0b`
and `\x0c`, which never reach this code path). -/
def pyStrip (s : String) : String :=
  String.mk
    (((s.data.dropWhile Char.isWhitespace).reverse.dropWhile
        Char.isWhitespace).reverse)

/-- One `--warc-header NAME: VALUE` string split at its first colon, both
halves stripped; `none` when no colon is present (Python raises there). -/
def parseWarcHeader (h : String) : Option (String × String) :=
  (pySplitOnce ':' h).map (fun p => (pyStrip p.1, pyStrip p.2))

/-- The `extra_fields` list handed to `WARCRecorder`: the robots on/off
field and the full argument string, then each user header parsed in order;
`none` when some header string has no colon. -/
def warcExtraFields (args : Args) : Option (List (String × String)) :=
  (args.warc_header.mapM parseWarcHeader).map
    (fun hs =>
      [("robots", if args.robots then "on" else "off"),
       ("wpull-arguments", argsStr args)] ++ hs)

/-- One sink of the demux recorder, remembering its constructor args. -/
inductive RecorderSink where
  | warc (path : String) (compress : Bool)
      (extraFields : List (String × String)) (tempDir : Option String)
      (log : Bool) (appending : Bool)
  | printServerResponse
  | progress
deriving Repr, DecidableEq

/-- Is this sink the WARC writer? -/
def RecorderSink.isWarc : RecorderSink → Bool
  | .warc _ _ _ _ _ _ => true
  | _ => false

/-- The `DemuxRecorder` fan-out the builder always wraps the sinks in. -/
structure DemuxRecorder where
  recorders : List RecorderSink
deriving Repr, DecidableEq

/-- Does `args.verbosity` make `_build_recorder` add the progress meter?
(`logging.INFO`, `logging.DEBUG`, `logging.WARN` or unset). -/
def progressEnabled (args : Args) : Bool :=
  args.verbosity = some logINFO || args.verbosity = some logDEBUG ||
    args.verbosity = some logWARN || args.verbosity = none

/-- `Builder._build_recorder`: optionally the WARC sink, then optionally
the server-response printer, then optionally the progress meter, wrapped
in a `DemuxRecorder`; `none` models the `ValueError` a colon-less
`--warc-header` raises. -/
def buildRecorder (args : Args) : Option DemuxRecorder :=
  let warcSinks : Option (List RecorderSink) :=
    if pyTruthyStr args.warc_file then
      let name := args.warc_file.getD ""
      let warcPath :=
        if args.no_warc_compression then name ++ ".warc"
        else name ++ ".warc.gz"
      (warcExtraFields args).map
        (fun fields =>
          [RecorderSink.warc warcPath (!args.no_warc_compression) fields
            args.warc_tempdir args.warc_log args.warc_append])
    else some []
  warcSinks.map
    (fun sinks =>
      let sinks :=
        if args.server_response then sinks ++ [.printServerResponse]
        else sinks
      let sinks :=
        if progressEnabled args then sinks ++ [.progress] else sinks
      ⟨sinks⟩)

/-- One operation on a request's header field record: the builder either
assigns a field (`request.fields[name] = value`) or feeds it a raw header
string (`request.fields.parse(header_string)`); the record itself lives in
`wpull.http`, outside `src/`, so the factory is modelled by the ordered
list of operations it applies to the fresh request. -/
inductive FieldOp where
  | set (name value : String)
  | parseRaw (raw : String)
deriving Repr, DecidableEq

/-- The default User-Agent string, as formatted in
`Builder._build_request_factory`; `version` is `wpull.version.__version__`
(a module outside `src/`). -/
def defaultUserAgent (version : String) : String :=
  "Mozilla/5.0 (compatible) Wpull/" ++ version

/-- The header-field operations the builder's `request_factory` applies to
every request it creates, in order. -/
def requestFieldOps (args : Args) (version : String) : List FieldOp :=
  let ua :=
    if pyTruthyStr args.user_agent then args.user_agent.getD ""
    else defaultUserAgent version
  [FieldOp.set "User-Agent" ua]
    ++ (if pyTruthyStr args.referer then
          [FieldOp.set "Referer" (args.referer.getD "")]
        else [])
    ++ args.header.map FieldOp.parseRaw

/-- Does this operation assign the header field named `n`? -/
def FieldOp.setsName (o : FieldOp) (n : String) : Bool :=
  match o with
  | .set m _ => m = n
  | .parseRaw _ => false

/-- Is this operation a raw header-string parse? -/
def FieldOp.isParseRaw : FieldOp → Bool
  | .parseRaw _ => true
  | .set _ _ => false

/-- A value stored in `Builder._classes`: one of the imported classes, or
one of the three factories a `HookEnvironment` supplies (`wpull.hook` is
outside `src/`, so the factories are opaque tags). -/
inductive ClassRef where
  | urlInfoClass
  | urlTableClass
  | htmlScraperClass
  | engineClass
  | clientClass
  | connectionClass
  | hostConnectionPoolClass
  | connectionPoolClass
  | requestClass
  | resolverClass
  | webProcessorClass
  | warcRecorderClass
  | demuxRecorderClass
  | printServerResponseRecorderClass
  | progressRecorderClass
  | linearWaiterClass
  | pathNamerClass
  | hookEngineFactory
  | hookWebProcessorFactory
  | hookResolverFactory
deriving Repr, DecidableEq

/-- The `self._classes` dict as initialised in `Builder.__init__`, in
source order.  Note the `'CSSScraper'` entry is bound to `Engine`. -/
def initialClasses : List (String × ClassRef) :=
  [ ("URLInfo", .urlInfoClass),
    ("URLTable", .urlTableClass),
    ("HTMLScraper", .htmlScraperClass),
    ("CSSScraper", .engineClass),
    ("Client", .clientClass),
    ("Connection", .connectionClass),
    ("HostConnectionPool", .hostConnectionPoolClass),
    ("ConnectionPool", .connectionPoolClass),
    ("Request", .requestClass),
    ("Resolver", .resolverClass),
    ("WebProcessor", .webProcessorClass),
    ("WARCRecorder", .warcRecorderClass),
    ("DemuxRecorder", .demuxRecorderClass),
    ("PrintServerResponseRecorder", .printServerResponseRecorderClass),
    ("ProgressRecorder", .progressRecorderClass),
    ("Waiter", .linearWaiterClass),
    ("PathNamer", .pathNamerClass),
    ("Engine", .engineClass) ]

/-- Python dict assignment `d[k] = v` on an existing key: the entry keeps
its position, its value is replaced (every key the builder assigns is
already present in `initialClasses`). -/
def setClass (m : List (String × ClassRef)) (k : String) (v : ClassRef) :
    List (String × ClassRef) :=
  m.map (fun p => if p.1 = k then (p.1, v) else p)

/-- The registry mutation in `Builder._install_python_script`: the three
assignments replacing `Engine`, `WebProcessor` and `Resolver` with the
hook environment's factories. -/
def installPythonScript (m : List (String × ClassRef)) :
    List (String × ClassRef) :=
  setClass
    (setClass (setClass m "Engine" .hookEngineFactory)
      "WebProcessor" .hookWebProcessorFactory)
    "Resolver" .hookResolverFactory

/-- `Builder._install_script_hooks`: run the Python-script install only
when `--python-script` was given. -/
def installScriptHooks (args : Args) (m : List (String × ClassRef)) :
    List (String × ClassRef) :=
  if pyTruthyStr args.python_script then installPythonScript m else m

/-- A document scraper instance as `_build_document_scrapers` makes it:
the classes are called directly (`HTMLScraper(...)`, `CSSScraper()`), not
looked up in `self._classes`. -/
inductive Scraper where
  | html (followedTags ignoredTags : Option (List String))
      (onlyRelative robots : Bool)
  | css
deriving Repr, DecidableEq

/-- `Builder._build_document_scrapers`. -/
def buildDocumentScrapers (args : Args) : List Scraper :=
  [ .html args.follow_tags args.ignore_tags args.relative args.robots,
    .css ]

/-- The externally visible steps of `Builder.build` /
`Builder.build_and_run`, in execution order. -/
inductive BuildEvent where
  | setupLogging
  | setupFileLogger
  | installHooks
  | urlTableCreate (path : String)
  | urlTableAdd (urls : List String)
  | buildProcessor
  | buildHttpClient
  | engineCreate (concurrent : Nat)
  | engineRun
deriving Repr, DecidableEq

/-- Is this event an insertion into the URL table? -/
def BuildEvent.isUrlTableAdd : BuildEvent → Bool
  | .urlTableAdd _ => true
  | _ => false

/-- The event trace of `Builder.build`: logging setup, hook install, then
`_build_url_table` (which constructs the table and immediately makes its
single `add` call with the seed URLs), then the processor, the HTTP
client, and the engine construction. -/
def buildTrace (args : Args) : List BuildEvent :=
  [ .setupLogging,
    .setupFileLogger,
    .installHooks,
    .urlTableCreate args.database,
    .urlTableAdd ((buildInputUrls args).map URLInfo.url),
    .buildProcessor,
    .buildHttpClient,
    .engineCreate args.concurrent ]

/-- The event trace of `Builder.build_and_run`: everything `build` does,
then the engine is run on the IO loop. -/
def buildAndRunTrace (args : Args) : List BuildEvent :=
  buildTrace args ++ [.engineRun]

/-- A small concrete argument namespace (wget-like defaults) used to
instantiate the universally quantified theorems on concrete inputs. -/
def exampleArgs : Args where
  urls := ["http://example.com/"]
  input_file := none
  python_script := none
  database := ":memory:"
  concurrent := 2
  verbosity := none
  warc_file := none
  no_warc_compression := false
  warc_header := []
  warc_tempdir := none
  warc_log := false
  warc_append := false
  server_response := false
  delete_after := false
  recursive := false
  page_requisites := false
  continue_download := false
  clobber_method := none
  timestamping := false
  use_directories := none
  directory_root := "."
  default_page := "index.html"
  cut_dirs := 0
  protocol_directories := false
  host_directories := true
  save_headers := false
  use_server_timestamps := true
  user_agent := none
  referer := none
  header := []
  dns_timeout := none
  connect_timeout := none
  read_timeout := none
  timeout := none
  inet_family := none
  prefer_family := none
  rotate_dns := false
  http_keep_alive := true
  domains := none
  exclude_domains := none
  hostnames := none
  exclude_hostnames := none
  tries := some 20
  level := some 5
  span_hosts := false
  accept_regex := none
  reject_regex := none
  include_directories := none
  exclude_directories := none
  no_parent := false
  follow_tags := none
  ignore_tags := none
  relative := false
  robots := true
  wait := none
  random_wait := false
  waitretry := none
  retry_connrefused := false
  retry_dns_error := false
  max_redirect := 20

/-- C1: for every configuration, the URL filter pipeline built by the
Builder contains exactly one filter of each of the nine required classes
(HTTP scheme, domain, hostname, tries, recursive, level, span-hosts,
regex, directory), contains the parent filter exactly when `--no-parent`
is set, and contains nothing else (its length is the sum of those
counts). -/
theorem url_filter_pipeline_exact (args : Args) :
    countKind (buildURLFilters args) .http = 1 ∧
    countKind (buildURLFilters args) .backwardDomain = 1 ∧
    countKind (buildURLFilters args) .hostname = 1 ∧
    countKind (buildURLFilters args) .tries = 1 ∧
    countKind (buildURLFilters args) .recursive = 1 ∧
    countKind (buildURLFilters args) .level = 1 ∧
    countKind (buildURLFilters args) .spanHosts = 1 ∧
    countKind (buildURLFilters args) .regex = 1 ∧
    countKind (buildURLFilters args) .directory = 1 ∧
    countKind (buildURLFilters args) .parent =
      (if args.no_parent then 1 else 0) ∧
    (buildURLFilters args).length = (if args.no_parent then 10 else 9) := by
  cases h : args.no_parent <;>
    simp [buildURLFilters, countKind, h, URLFilter.kind]

/-- C2: the builder selects exactly one file writer: the null writer when
`--delete-after` is set; otherwise, when recursion, page requisites or
continue-download is enabled, the overwrite writer if the clobber method
is `disable` and the ignore-and-skip writer otherwise; otherwise the
timestamping writer when `--timestamping` is set, and the anti-clobber
(rename-to-avoid) writer in all remaining cases. -/
theorem file_writer_selection (args : Args) :
    (args.delete_after = true → (buildFileWriter args).kind = .null) ∧
    (args.delete_after = false →
      (args.recursive || args.page_requisites ||
          args.continue_download) = true →
        ((args.clobber_method = some "disable" →
            (buildFileWriter args).kind = .overwrite) ∧
         (args.clobber_method ≠ some "disable" →
            (buildFileWriter args).kind = .ignore))) ∧
    (args.delete_after = false →
      (args.recursive || args.page_requisites ||
          args.continue_download) = false →
      args.timestamping = true →
        (buildFileWriter args).kind = .timestamping) ∧
    (args.delete_after = false →
      (args.recursive || args.page_requisites ||
          args.continue_download) = false →
      args.timestamping = false →
        (buildFileWriter args).kind = .antiClobber) := by
  refine ⟨fun h1 => ?_, fun h1 h2 => ⟨fun h3 => ?_, fun h3 => ?_⟩,
    fun h1 h2 h3 => ?_, fun h1 h2 h3 => ?_⟩
  · simp [buildFileWriter, FileWriter.kind, h1]
  · simp [buildFileWriter, FileWriter.kind, h1, h2, h3]
  · simp [buildFileWriter, FileWriter.kind, h1, h2, h3]
  · simp [buildFileWriter, FileWriter.kind, h1, h2, h3]
  · simp [buildFileWriter, FileWriter.kind, h1, h2, h3]

/-- Witness for C2 at concrete configurations: delete-after picks the null
writer, recursive crawling picks the ignore writer. -/
theorem file_writer_selection_witness :
    (buildFileWriter { exampleArgs with delete_after := true }).kind =
        .null ∧
    (buildFileWriter { exampleArgs with recursive := true }).kind =
        .ignore :=
  ⟨(file_writer_selection { exampleArgs with delete_after := true }).1 rfl,
   ((file_writer_selection
        { exampleArgs with recursive := true }).2.1 rfl rfl).2 (by decide)⟩

/-- C3: the Resolver is built with families `[IPv4]` when
`--inet4-only`-style family is `IPv4`, `[IPv6]` when it is `IPv6`,
`[IPv6, IPv4]` when instead `--prefer-family` is `IPv6`, and
`[IPv4, IPv6]` otherwise; its rotate flag is `--rotate-dns` and its
timeout is the effective DNS timeout. -/
theorem resolver_construction (args : Args) :
    (args.inet_family = some "IPv4" →
      (buildResolver args).families = [.ipv4]) ∧
    (args.inet_family ≠ some "IPv4" → args.inet_family = some "IPv6" →
      (buildResolver args).families = [.ipv6]) ∧
    (args.inet_family ≠ some "IPv4" → args.inet_family ≠ some "IPv6" →
      args.prefer_family = some "IPv6" →
      (buildResolver args).families = [.ipv6, .ipv4]) ∧
    (args.inet_family ≠ some "IPv4" → args.inet_family ≠ some "IPv6" →
      args.prefer_family ≠ some "IPv6" →
      (buildResolver args).families = [.ipv4, .ipv6]) ∧
    (buildResolver args).rotate = args.rotate_dns ∧
    (buildResolver args).timeout = (effectiveTimeouts args).1 := by
  refine ⟨fun h1 => ?_, fun h1 h2 => ?_, fun h1 h2 h3 => ?_,
    fun h1 h2 h3 => ?_, rfl, rfl⟩
  · simp [buildResolver, resolverFamilies, h1]
  · simp [buildResolver, resolverFamilies, h1, h2]
  · simp [buildResolver, resolverFamilies, h1, h2, h3]
  · simp [buildResolver, resolverFamilies, h1, h2, h3]

/-- Witness for C3: with no family options the preference list is
IPv4-then-IPv6. -/
theorem resolver_construction_witness :
    (buildResolver exampleArgs).families = [.ipv4, .ipv6] :=
  (resolver_construction exampleArgs).2.2.2.1 (by decide) (by decide)
    (by decide)

/-- C10: a truthy umbrella `--timeout` value overrides all three of the
DNS timeout given to the Resolver and the connect and read timeouts the
connection factory gives every Connection; otherwise each keeps its
individually configured value. -/
theorem umbrella_timeout_override (args : Args) :
    (∀ t, args.timeout = some t → t ≠ 0 →
      (buildResolver args).timeout = some t ∧
      (buildConnectionArgs args).connectTimeout = some t ∧
      (buildConnectionArgs args).readTimeout = some t) ∧
    (pyTruthyNum args.timeout = false →
      (buildResolver args).timeout = args.dns_timeout ∧
      (buildConnectionArgs args).connectTimeout = args.connect_timeout ∧
      (buildConnectionArgs args).readTimeout = args.read_timeout) := by
  constructor
  · intro t ht hne
    simp [buildResolver, buildConnectionArgs, effectiveTimeouts,
      pyTruthyNum, ht, hne]
  · intro h
    simp [buildResolver, buildConnectionArgs, effectiveTimeouts, h]

/-- Witness for C10: with `--timeout 9` all three timeouts are 9; with no
umbrella timeout the individual values survive. -/
theorem umbrella_timeout_override_witness :
    ((buildResolver { exampleArgs with timeout := some 9 }).timeout =
        some 9 ∧
      (buildConnectionArgs
          { exampleArgs with timeout := some 9 }).connectTimeout =
        some 9) ∧
    (buildResolver
        { exampleArgs with dns_timeout := some 4 }).timeout = some 4 :=
  ⟨⟨((umbrella_timeout_override { exampleArgs with timeout := some 9 }).1
        9 rfl (by decide)).1,
    ((umbrella_timeout_override { exampleArgs with timeout := some 9 }).1
        9 rfl (by decide)).2.1⟩,
   ((umbrella_timeout_override
        { exampleArgs with dns_timeout := some 4 }).2 (by decide)).1⟩

/-- C4: the seed set (command-line URLs followed by the input file's
lines, each parsed with default scheme `http`) is inserted into the URL
table by exactly one `add` call in the whole build-and-run trace, and
that call happens before the engine runs. -/
theorem seeds_inserted_once_before_run (args : Args) :
    (buildAndRunTrace args).filter BuildEvent.isUrlTableAdd =
      [.urlTableAdd ((args.urls ++ args.input_file.getD []).map
        (fun s => (URLInfo.parse s "http").url))] ∧
    ∃ i j, i < j ∧
      (buildAndRunTrace args).get? i =
        some (.urlTableAdd ((args.urls ++ args.input_file.getD []).map
          (fun s => (URLInfo.parse s "http").url))) ∧
      (buildAndRunTrace args).get? j = some .engineRun := by
  have hurls : buildInputUrls args =
      (args.urls ++ args.input_file.getD []).map
        (fun s => URLInfo.parse s "http") := by
    cases h : args.input_file <;> simp [buildInputUrls, h]
  constructor
  · simp [buildAndRunTrace, buildTrace, BuildEvent.isUrlTableAdd, hurls,
      Function.comp_def, URLInfo.url, URLInfo.parse]
  · refine ⟨4, 8, by decide, ?_, ?_⟩
    · simp [buildAndRunTrace, buildTrace, hurls, Function.comp_def,
        URLInfo.url, URLInfo.parse]
    · simp [buildAndRunTrace, buildTrace]

/-- C9: the builder's class registry binds the key `CSSScraper` to the
`Engine` class, yet the document scraper list always holds an actual CSS
scraper instance and an HTML scraper instance, because
`_build_document_scrapers` calls the classes directly instead of going
through the registry. -/
theorem css_scraper_registry_mismatch (args : Args) :
    initialClasses.lookup "CSSScraper" = some ClassRef.engineClass ∧
    Scraper.css ∈ buildDocumentScrapers args ∧
    Scraper.html args.follow_tags args.ignore_tags args.relative
        args.robots ∈ buildDocumentScrapers args := by
  refine ⟨by decide, ?_, ?_⟩ <;> simp [buildDocumentScrapers]

/-- C7: every request the builder's request factory produces gets exactly
one User-Agent assignment — the configured user agent when one is supplied
(truthy), else the default `Mozilla/5.0 (compatible) Wpull/<version>` —
gets a Referer assignment exactly when a referer is configured, and has
every user-supplied `--header` string fed to the field parser in order. -/
theorem request_factory_fields (args : Args) (version : String) :
    (requestFieldOps args version).filter
        (fun o => o.setsName "User-Agent") =
      [FieldOp.set "User-Agent"
        (if pyTruthyStr args.user_agent then args.user_agent.getD ""
         else defaultUserAgent version)] ∧
    (requestFieldOps args version).filter
        (fun o => o.setsName "Referer") =
      (if pyTruthyStr args.referer then
        [FieldOp.set "Referer" (args.referer.getD "")]
       else []) ∧
    (requestFieldOps args version).filter FieldOp.isParseRaw =
      args.header.map FieldOp.parseRaw := by
  refine ⟨?_, ?_, ?_⟩ <;>
    cases hu : pyTruthyStr args.user_agent <;>
    cases hr : pyTruthyStr args.referer <;>
    simp [requestFieldOps, FieldOp.setsName, FieldOp.isParseRaw, hu, hr,
      List.filter_map, Function.comp_def]

/-- C8: when a Python hook script is supplied, installing it replaces
exactly the `Engine`, `WebProcessor` and `Resolver` registry entries with
the hook environment's factories, keeps the key set and its order intact,
and leaves every other registry entry's binding unchanged; with no script
the registry is untouched. -/
theorem hook_install_registry (args : Args) :
    (pyTruthyStr args.python_script = true →
      ((installScriptHooks args initialClasses).lookup "Engine" =
          some ClassRef.hookEngineFactory ∧
       (installScriptHooks args initialClasses).lookup "WebProcessor" =
          some ClassRef.hookWebProcessorFactory ∧
       (installScriptHooks args initialClasses).lookup "Resolver" =
          some ClassRef.hookResolverFactory ∧
       (installScriptHooks args initialClasses).map Prod.fst =
          initialClasses.map Prod.fst ∧
       ∀ p ∈ initialClasses,
         p.1 ≠ "Engine" → p.1 ≠ "WebProcessor" → p.1 ≠ "Resolver" →
           (installScriptHooks args initialClasses).lookup p.1 =
             some p.2)) ∧
    (pyTruthyStr args.python_script = false →
      installScriptHooks args initialClasses = initialClasses) := by
  constructor
  · intro h
    simp only [installScriptHooks, h, if_true]
    decide
  · intro h
    simp [installScriptHooks, h]

/-- Witness for C8: with a script supplied, `Engine` reads back the hook
factory while the untouched `CSSScraper` key still reads the Engine
class. -/
theorem hook_install_registry_witness :
    (installScriptHooks
        { exampleArgs with python_script := some "hook.py" }
        initialClasses).lookup "Engine" =
      some ClassRef.hookEngineFactory ∧
    (installScriptHooks
        { exampleArgs with python_script := some "hook.py" }
        initialClasses).lookup "CSSScraper" =
      some ClassRef.engineClass := by
  constructor
  · exact ((hook_install_registry
      { exampleArgs with python_script := some "hook.py" }).1
        (by decide)).1
  · exact ((hook_install_registry
      { exampleArgs with python_script := some "hook.py" }).1
        (by decide)).2.2.2.2 ("CSSScraper", ClassRef.engineClass)
        (by decide) (by decide) (by decide) (by decide)

/-- C5: whenever `_build_recorder` returns (that is, no malformed WARC
header made it raise), the result is a demux fan-out whose sink list has
a WARC writer exactly when a WARC file is configured, the server-response
printer exactly when `--server-response` is set, the progress meter
exactly when the verbosity is INFO, DEBUG, WARN or unset, and nothing
else (the length is the sum of those three indicators). -/
theorem recorder_sink_selection (args : Args) (r : DemuxRecorder)
    (h : buildRecorder args = some r) :
    ((∃ s ∈ r.recorders, s.isWarc = true) ↔
      pyTruthyStr args.warc_file = true) ∧
    (RecorderSink.printServerResponse ∈ r.recorders ↔
      args.server_response = true) ∧
    (RecorderSink.progress ∈ r.recorders ↔ progressEnabled args = true) ∧
    r.recorders.length =
      (if pyTruthyStr args.warc_file then 1 else 0) +
      (if args.server_response then 1 else 0) +
      (if progressEnabled args then 1 else 0) := by
  cases hw : pyTruthyStr args.warc_file with
  | false =>
    cases hsr : args.server_response <;> cases hp : progressEnabled args <;>
      simp [buildRecorder, hw, hsr, hp] at h <;>
      simp [← h, RecorderSink.isWarc, hsr, hp]
  | true =>
    cases hf : warcExtraFields args with
    | none => simp [buildRecorder, hw, hf] at h
    | some fields =>
      cases hsr : args.server_response <;>
        cases hp : progressEnabled args <;>
        simp [buildRecorder, hw, hf, hsr, hp] at h <;>
        simp [← h, RecorderSink.isWarc, hsr, hp]

/-- Witness for C5: with no WARC file, no server-response flag and unset
verbosity, the built recorder holds the progress meter and no
server-response printer. -/
theorem recorder_sink_selection_witness :
    RecorderSink.progress ∈ (⟨[RecorderSink.progress]⟩ :
      DemuxRecorder).recorders ∧
    RecorderSink.printServerResponse ∉ (⟨[RecorderSink.progress]⟩ :
      DemuxRecorder).recorders :=
  ⟨(recorder_sink_selection exampleArgs ⟨[RecorderSink.progress]⟩
      (by decide)).2.2.1.mpr (by decide),
   fun hmem => absurd
     ((recorder_sink_selection exampleArgs ⟨[RecorderSink.progress]⟩
        (by decide)).2.1.mp hmem) (by decide)⟩

/-- `mapM` over the header strings succeeds exactly by splitting each at
its first colon and stripping both halves, pointwise in order. -/
theorem mapM_parseWarcHeader_forall2 (l : List String)
    (hs : List (String × String)) (h : l.mapM parseWarcHeader = some hs) :
    List.Forall₂
      (fun s p => ∃ n v, pySplitOnce ':' s = some (n, v) ∧
        p = (pyStrip n, pyStrip v)) l hs := by
  induction l generalizing hs with
  | nil =>
    rw [List.mapM_nil] at h
    cases h
    exact .nil
  | cons a l ih =>
    rw [List.mapM_cons] at h
    cases hpa : parseWarcHeader a with
    | none => rw [hpa] at h; simp at h
    | some b =>
      rw [hpa] at h
      cases hml : l.mapM parseWarcHeader with
      | none => rw [hml] at h; simp at h
      | some bs =>
        rw [hml] at h
        simp only [Option.bind_eq_bind, Option.some_bind,
          Option.some.injEq] at h
        cases h
        refine .cons ?_ (ih bs hml)
        rcases Option.map_eq_some'.mp hpa with ⟨p, hp1, hp2⟩
        exact ⟨p.1, p.2, by simpa using hp1, hp2.symm⟩

/-- C6: with a WARC file configured and every `--warc-header` string
containing a colon, the WARC sink is built with path `<name>.warc.gz`
when compression is on (the default) and `<name>.warc` when it is off,
with extra fields starting with the robots on/off field and the full
argument string followed by each user header split at its first colon and
stripped, and with its appending flag equal to `--warc-append`. -/
theorem warc_sink_configuration (args : Args) (name : String)
    (hs : List (String × String)) (hname : args.warc_file = some name)
    (hne : name ≠ "")
    (hh : args.warc_header.mapM parseWarcHeader = some hs) :
    buildRecorder args = some ⟨RecorderSink.warc
        (name ++ (if args.no_warc_compression then ".warc"
                  else ".warc.gz"))
        (!args.no_warc_compression)
        ([("robots", if args.robots then "on" else "off"),
          ("wpull-arguments", argsStr args)] ++ hs)
        args.warc_tempdir args.warc_log args.warc_append ::
      ((if args.server_response then [RecorderSink.printServerResponse]
        else []) ++
       (if progressEnabled args then [RecorderSink.progress] else []))⟩ ∧
    List.Forall₂
      (fun s p => ∃ n v, pySplitOnce ':' s = some (n, v) ∧
        p = (pyStrip n, pyStrip v)) args.warc_header hs := by
  have hw : pyTruthyStr (some name) = true := by
    simp only [pyTruthyStr, Bool.not_eq_true']
    cases hmt : name.isEmpty
    · rfl
    · exact absurd ((String.isEmpty_iff name).mp hmt) hne
  have hf : warcExtraFields args =
      some ([("robots", if args.robots then "on" else "off"),
        ("wpull-arguments", argsStr args)] ++ hs) := by
    unfold warcExtraFields
    rw [hh]
    rfl
  refine ⟨?_, mapM_parseWarcHeader_forall2 _ _ hh⟩
  cases hsr : args.server_response <;> cases hp : progressEnabled args <;>
    cases hc : args.no_warc_compression <;>
    simp [buildRecorder, hw, hf, hsr, hp, hc, hname]

/-- A concrete configuration with a WARC file and one user header. -/
def warcExampleArgs : Args :=
  { exampleArgs with warc_file := some "out", warc_header := ["a: b"] }

/-- Witness for C6: with WARC file `out`, default compression and the
single header `a: b`, the WARC sink gets path `out.warc.gz`, compression
on, the robots and argument fields followed by the stripped `(a, b)`
pair, and appending off. -/
theorem warc_sink_configuration_witness :
    buildRecorder warcExampleArgs =
      some ⟨[RecorderSink.warc ("out" ++ ".warc.gz") true
        [("robots", "on"), ("wpull-arguments", argsStr warcExampleArgs),
         ("a", "b")] none false false,
        RecorderSink.progress]⟩ := by
  have h := (warc_sink_configuration warcExampleArgs "out" [("a", "b")]
    rfl (by decide) (by decide)).1
  simpa [warcExampleArgs, exampleArgs, progressEnabled] using h

end Wpull
